import Mathlib

/-!
Verification of the booking/notification route handlers
(`server/routes/bookings.js`) and the client notification panel
(`src/components/NotificationBell.jsx`) of the restaurant-booking
repository.  The relational store is modelled as explicit lists of rows;
ids are primary keys, so SQL point lookups and `LEFT JOIN`s on an id
become `List.find?`.  JavaScript truthiness quirks that the handlers rely
on (`x || null`, `parseInt(limit) || 50`, `if (notification.booking_id)`)
are modelled explicitly.
-/

namespace BookingApp

/-! ## JavaScript-semantics helpers -/

/-- Models the JS expression `s || null` applied to a nullable string:
`null`, `undefined` and the empty string are falsy and give `null`. -/
def jsStringOrNull : Option String → Option String
  | none => none
  | some s => if s = "" then none else some s

/-- Digits accepted by `parseInt` in base 16. -/
def isHexDigitChar (c : Char) : Bool :=
  c.isDigit || (('a' ≤ c && c ≤ 'f') || ('A' ≤ c && c ≤ 'F'))

/-- Numeric value of a base-16 digit character. -/
def hexDigitValue (c : Char) : Nat :=
  if c.isDigit then c.toNat - 48
  else if 'a' ≤ c && c ≤ 'f' then c.toNat - 87
  else c.toNat - 55

/-- Reads the longest prefix of digits (per `isDigitB`) and folds it in the
given base; `none` when no digit is present (JS `NaN`). -/
def parseDigitRun (isDigitB : Char → Bool) (digitValue : Char → Nat)
    (base : Nat) (cs : List Char) : Option Nat :=
  let ds := cs.takeWhile isDigitB
  if ds.isEmpty then none
  else some (ds.foldl (fun a c => a * base + digitValue c) 0)

/-- Models JS `parseInt(s)` with an unspecified radix: leading whitespace is
skipped, an optional sign is read, a `0x`/`0X` prefix selects base 16,
otherwise the longest leading run of decimal digits is read; `none` is JS
`NaN`. -/
def parseIntJS (s : String) : Option Int :=
  let cs := s.toList.dropWhile Char.isWhitespace
  let signed : Int × List Char :=
    match cs with
    | '-' :: r => (-1, r)
    | '+' :: r => (1, r)
    | _ => (1, cs)
  let mag : Option Nat :=
    match signed.2 with
    | '0' :: c :: r =>
        if c == 'x' || c == 'X' then parseDigitRun isHexDigitChar hexDigitValue 16 r
        else parseDigitRun Char.isDigit (fun d => d.toNat - 48) 10 signed.2
    | _ => parseDigitRun Char.isDigit (fun d => d.toNat - 48) 10 signed.2
  mag.map (fun n => signed.1 * n)

/-- Models `v || d` on a JS number that may be `NaN` (`none`): `NaN` and `0`
are falsy. -/
def jsNumOrDefault (v : Option Int) (d : Int) : Int :=
  match v with
  | none => d
  | some x => if x = 0 then d else x

/-! ## Data model (rows of the relational store) -/

/-- Row of `restaurants`. -/
structure Restaurant where
  id : Nat
  name : String
  address : String
  is_active : Bool
  deriving DecidableEq

/-- Row of `restaurant_tables`. -/
structure RestaurantTable where
  id : Nat
  restaurant_id : Nat
  table_number : String
  capacity : Nat
  status : String
  deriving DecidableEq

/-- Row of `bookings`. -/
structure Booking where
  id : Nat
  user_id : Nat
  restaurant_id : Nat
  table_id : Nat
  date : String
  time : String
  guests : Nat
  special_requests : Option String
  status : String
  created_at : Nat
  updated_at : Nat
  deriving DecidableEq

/-- Row of `orders` (only the columns the notification query reads). -/
structure Order where
  id : Nat
  order_type : String
  status : String
  total_amount : Int
  deriving DecidableEq

/-- Row of `notifications`.  `is_read` is the SQLite 0/1 flag, modelled as
`Bool`. -/
structure Notification where
  id : Nat
  user_id : Nat
  title : String
  message : String
  type : String
  is_read : Bool
  created_at : Nat
  restaurant_id : Option Nat
  booking_id : Option Nat
  order_id : Option Nat
  deriving DecidableEq

/-- The persistent state reachable through the query interface, plus the
autoincrement counter for `bookings.id` and the clock used for
`CURRENT_TIMESTAMP`. -/
structure DB where
  restaurants : List Restaurant
  restaurant_tables : List RestaurantTable
  bookings : List Booking
  orders : List Order
  notifications : List Notification
  nextBookingId : Nat
  now : Nat
  deriving DecidableEq

/-! ## GET /notifications (consolidated read) -/

/-- `limitInt = Math.min(parseInt(limit) || 50, 100)`; an absent `limit`
query parameter defaults to the number `50`, which `parseInt` coerces
through the string form. -/
def effectiveLimit (limitQ : Option String) : Int :=
  match limitQ with
  | none => min (jsNumOrDefault (parseIntJS "50") 50) 100
  | some s => min (jsNumOrDefault (parseIntJS s) 50) 100

/-- SQL `LIMIT n`: a negative limit means no limit (SQLite), otherwise the
first `n` rows. -/
def applyLimit (n : Int) (l : List α) : List α :=
  if n < 0 then l else l.take n.toNat

/-- One row of the `LEFT JOIN` result set of the consolidated query. -/
structure JoinedNotification where
  id : Nat
  title : String
  message : String
  type : String
  is_read : Bool
  created_at : Nat
  restaurant_name : Option String
  restaurant_address : Option String
  booking_id : Option Nat
  booking_date : Option String
  booking_time : Option String
  table_number : Option String
  order_id : Option Nat
  order_type : Option String
  order_status : Option String
  order_total : Option Int
  deriving DecidableEq

/-- Performs the four `LEFT JOIN`s of the consolidated query for one
notification row (ids are primary keys, so each join finds at most one
row). -/
def joinNotification (db : DB) (n : Notification) : JoinedNotification :=
  let r := n.restaurant_id.bind (fun rid => db.restaurants.find? (fun x => x.id == rid))
  let b := n.booking_id.bind (fun bid => db.bookings.find? (fun x => x.id == bid))
  let rt := b.bind (fun bk => db.restaurant_tables.find? (fun x => x.id == bk.table_id))
  let o := n.order_id.bind (fun oid => db.orders.find? (fun x => x.id == oid))
  { id := n.id
    title := n.title
    message := n.message
    type := n.type
    is_read := n.is_read
    created_at := n.created_at
    restaurant_name := r.map (fun x => x.name)
    restaurant_address := r.map (fun x => x.address)
    booking_id := b.map (fun x => x.id)
    booking_date := b.map (fun x => x.date)
    booking_time := b.map (fun x => x.time)
    table_number := rt.map (fun x => x.table_number)
    order_id := o.map (fun x => x.id)
    order_type := o.map (fun x => x.order_type)
    order_status := o.map (fun x => x.status)
    order_total := o.map (fun x => x.total_amount) }

/-- The `booking_details` sub-object of an enriched notification. -/
structure BookingDetails where
  booking_id : Nat
  date : Option String
  time : Option String
  table_number : Option String
  deriving DecidableEq

/-- The `order_details` sub-object of an enriched notification. -/
structure OrderDetails where
  order_id : Nat
  order_type : Option String
  status : Option String
  total_amount : Option Int
  deriving DecidableEq

/-- One element of the `notifications` array in the response body. -/
structure EnrichedNotification where
  id : Nat
  title : String
  message : String
  type : String
  is_read : Bool
  created_at : Nat
  restaurant_name : Option String
  restaurant_address : Option String
  booking_details : Option BookingDetails
  order_details : Option OrderDetails
  deriving DecidableEq

/-- The enrichment mapping of the handler: `restaurant_name || null`,
`restaurant_address || null`, and the sub-objects attached under the JS
truthiness tests `if (notification.booking_id)` / `if (notification.order_id)`
(a joined id of `0` would be falsy). -/
def enrichNotification (j : JoinedNotification) : EnrichedNotification :=
  { id := j.id
    title := j.title
    message := j.message
    type := j.type
    is_read := j.is_read
    created_at := j.created_at
    restaurant_name := jsStringOrNull j.restaurant_name
    restaurant_address := jsStringOrNull j.restaurant_address
    booking_details :=
      match j.booking_id with
      | some bid =>
          if bid ≠ 0 then
            some { booking_id := bid
                   date := j.booking_date
                   time := j.booking_time
                   table_number := j.table_number }
          else none
      | none => none
    order_details :=
      match j.order_id with
      | some oid =>
          if oid ≠ 0 then
            some { order_id := oid
                   order_type := j.order_type
                   status := j.order_status
                   total_amount := j.order_total }
          else none
      | none => none }

/-- Inserts a notification into a list that is sorted by `created_at`
descending, keeping it sorted. -/
def insertByCreatedAtDesc (n : Notification) : List Notification → List Notification
  | [] => [n]
  | m :: l =>
      if m.created_at ≤ n.created_at then n :: m :: l
      else m :: insertByCreatedAtDesc n l

/-- `ORDER BY n.created_at DESC` (insertion sort; the relative order of rows
with equal timestamps is unspecified in SQL). -/
def sortByCreatedAtDesc : List Notification → List Notification
  | [] => []
  | n :: l => insertByCreatedAtDesc n (sortByCreatedAtDesc l)

/-- The `data` object of the consolidated response. -/
structure NotificationsData where
  notifications : List EnrichedNotification
  unread_count : Nat
  total_count : Nat
  deriving DecidableEq

/-- The `GET /notifications` handler: filters the caller's rows (optionally
unread only, when `unread_only === 'true'`), orders by `created_at`
descending, applies the limit, enriches each row, and computes the two
independent counts for the same user. -/
def getNotificationsData (db : DB) (userId : Nat) (limitQ : Option String)
    (unread_only : Option String) : NotificationsData :=
  let limitInt := effectiveLimit limitQ
  let rows := db.notifications.filter
    (fun n => n.user_id == userId && (!(unread_only == some "true") || !n.is_read))
  let limited := applyLimit limitInt (sortByCreatedAtDesc rows)
  { notifications := limited.map (fun n => enrichNotification (joinNotification db n))
    unread_count := db.notifications.countP (fun n => n.user_id == userId && !n.is_read)
    total_count := db.notifications.countP (fun n => n.user_id == userId) }

/-- The legacy `GET /notifications/unread-count` handler:
`SELECT COUNT(*) FROM notifications WHERE user_id = ? AND is_read = 0`
(the `result.count || 0` coercion is the identity on an SQL count). -/
def legacyUnreadCount (db : DB) (userId : Nat) : Nat :=
  db.notifications.countP (fun n => n.user_id == userId && !n.is_read)

/-! ## Notification mutation handlers -/

/-- `PUT /notifications/mark-all-read`:
`UPDATE notifications SET is_read = 1 WHERE user_id = ? AND is_read = 0`.
The handler always answers 200 on a completed statement. -/
def markAllRead (db : DB) (userId : Nat) : DB :=
  { db with
    notifications := db.notifications.map
      (fun n => if n.user_id == userId && !n.is_read then { n with is_read := true } else n) }

/-- Outcome of `PUT /notifications/:id/read`. -/
inductive MarkReadResult where
  | notFound
  | ok
  deriving DecidableEq

/-- The row action of `UPDATE notifications SET is_read = 1 WHERE id = ?`. -/
def markReadRow (notificationId : Nat) (n : Notification) : Notification :=
  if n.id == notificationId then { n with is_read := true } else n

/-- `PUT /notifications/:id/read`: 404 when
`SELECT id FROM notifications WHERE id = ? AND user_id = ?` finds nothing,
otherwise `UPDATE notifications SET is_read = 1 WHERE id = ?`. -/
def markRead (db : DB) (notificationId userId : Nat) : MarkReadResult × DB :=
  match db.notifications.find? (fun n => n.id == notificationId && n.user_id == userId) with
  | none => (.notFound, db)
  | some _ =>
      (.ok, { db with
              notifications := db.notifications.map (markReadRow notificationId) })

/-! ## POST / (create booking) -/

/-- The request body of `POST /bookings` after JSON decoding. -/
structure BookingRequest where
  restaurantId : Nat
  tableId : Nat
  date : String
  time : String
  guests : Nat
  specialRequests : Option String
  deriving DecidableEq

/-- The regex `^([0-1]?[0-9]|2[0-3]):[0-5][0-9]$` of the time validator. -/
def timeFormatOk (s : String) : Bool :=
  match s.toList with
  | [h, ':', m1, m2] =>
      h.isDigit && (('0' ≤ m1 && m1 ≤ '5') && m2.isDigit)
  | [h1, h2, ':', m1, m2] =>
      (((h1 == '0' || h1 == '1') && h2.isDigit) || (h1 == '2' && ('0' ≤ h2 && h2 ≤ '3')))
        && (('0' ≤ m1 && m1 ≤ '5') && m2.isDigit)
  | _ => false

/-- The `bookingValidation` middleware chain.  The ISO-8601 date validator
comes from the external validator library, so it is a parameter. -/
def bookingValidationOk (isISO8601 : String → Bool) (req : BookingRequest) : Bool :=
  decide (1 ≤ req.restaurantId) && decide (1 ≤ req.tableId)
    && isISO8601 req.date && timeFormatOk req.time
    && decide (1 ≤ req.guests) && decide (req.guests ≤ 20)
    && (match req.specialRequests with
        | none => true
        | some s => decide (s.length ≤ 500))

/-- The `data` object of a 201 response to `POST /bookings`. -/
structure BookingCreatedData where
  bookingId : Nat
  restaurantName : String
  tableNumber : String
  date : String
  time : String
  guests : Nat
  status : String
  deriving DecidableEq

/-- Response of the `POST /bookings` handler. -/
inductive BookingResponse where
  | validationFailed
  | restaurantNotFound
  | tableNotFound
  | capacityExceeded (capacity guests : Nat)
  | tableUnavailable
  | created (data : BookingCreatedData)
  deriving DecidableEq

/-- HTTP status code of each `POST /bookings` outcome. -/
def BookingResponse.statusCode : BookingResponse → Nat
  | .validationFailed => 400
  | .restaurantNotFound => 404
  | .tableNotFound => 404
  | .capacityExceeded _ _ => 400
  | .tableUnavailable => 400
  | .created _ => 201

/-- Whether a response is the capacity-violation rejection. -/
def BookingResponse.isCapacityExceeded : BookingResponse → Bool
  | .capacityExceeded _ _ => true
  | _ => false

/-- The `POST /bookings` handler: validation, restaurant lookup
(`id = ? AND is_active = 1`), table lookup (`id = ? AND restaurant_id = ?`),
capacity check, availability check, then the booking insert followed by the
table-status update — in source order. -/
def createBooking (isISO8601 : String → Bool) (db : DB) (userId : Nat)
    (req : BookingRequest) : BookingResponse × DB :=
  if !bookingValidationOk isISO8601 req then (.validationFailed, db)
  else
    match db.restaurants.find? (fun r => r.id == req.restaurantId && r.is_active) with
    | none => (.restaurantNotFound, db)
    | some restaurant =>
        match db.restaurant_tables.find?
            (fun t => t.id == req.tableId && t.restaurant_id == req.restaurantId) with
        | none => (.tableNotFound, db)
        | some table =>
            if table.capacity < req.guests then
              (.capacityExceeded table.capacity req.guests, db)
            else if table.status ≠ "available" then (.tableUnavailable, db)
            else
              let newBooking : Booking :=
                { id := db.nextBookingId
                  user_id := userId
                  restaurant_id := req.restaurantId
                  table_id := req.tableId
                  date := req.date
                  time := req.time
                  guests := req.guests
                  special_requests := jsStringOrNull req.specialRequests
                  status := "confirmed"
                  created_at := db.now
                  updated_at := db.now }
              let db2 : DB :=
                { db with
                  bookings := db.bookings ++ [newBooking]
                  nextBookingId := db.nextBookingId + 1
                  restaurant_tables := db.restaurant_tables.map
                    (fun t => if t.id == req.tableId then { t with status := "reserved" } else t) }
              (.created
                { bookingId := db.nextBookingId
                  restaurantName := restaurant.name
                  tableNumber := table.table_number
                  date := req.date
                  time := req.time
                  guests := req.guests
                  status := "confirmed" }, db2)

/-! ## PUT /:id/cancel (cancel booking) -/

/-- Response of the `PUT /bookings/:id/cancel` handler. -/
inductive CancelResponse where
  | notFound
  | alreadyCancelled
  | cancelled
  deriving DecidableEq

/-- HTTP status code of each cancel outcome. -/
def CancelResponse.statusCode : CancelResponse → Nat
  | .notFound => 404
  | .alreadyCancelled => 400
  | .cancelled => 200

/-- The row action of
`UPDATE bookings SET status = "cancelled", updated_at = CURRENT_TIMESTAMP WHERE id = ?`. -/
def cancelBookingRow (bookingId stamp : Nat) (b : Booking) : Booking :=
  if b.id == bookingId then { b with status := "cancelled", updated_at := stamp } else b

/-- The `PUT /bookings/:id/cancel` handler: owner-scoped lookup, the
already-cancelled guard, then the booking-status update (touching
`updated_at`) followed by the table-status reset. -/
def cancelBooking (db : DB) (bookingId userId : Nat) : CancelResponse × DB :=
  match db.bookings.find? (fun b => b.id == bookingId && b.user_id == userId) with
  | none => (.notFound, db)
  | some booking =>
      if booking.status == "cancelled" then (.alreadyCancelled, db)
      else
        let db1 : DB :=
          { db with bookings := db.bookings.map (cancelBookingRow bookingId db.now) }
        let db2 : DB :=
          { db1 with
            restaurant_tables := db1.restaurant_tables.map
              (fun t => if t.id == booking.table_id then { t with status := "available" } else t) }
        (.cancelled, db2)

/-! ## Client notification panel (`NotificationBell.jsx`) -/

/-- The component state that the claims concern: the rendered list and the
badge count. -/
structure ClientState where
  notifications : List EnrichedNotification
  unreadCount : Nat
  deriving DecidableEq

/-- Outcome of the network fetch inside `loadNotifications`. -/
inductive LoadOutcome where
  | ok (data : NotificationsData)
  | badResponse
  | networkError
  deriving DecidableEq

/-- `loadNotifications`: a successful consolidated response installs the
returned list and unread count; a non-success response and a thrown network
error both reset the panel to an empty list and a zero count. -/
def loadNotifications (st : ClientState) (out : LoadOutcome) : ClientState :=
  match out with
  | .ok d => { st with notifications := d.notifications, unreadCount := d.unread_count }
  | .badResponse => { st with notifications := [], unreadCount := 0 }
  | .networkError => { st with notifications := [], unreadCount := 0 }

/-- `markAsRead`: snapshot the state, apply the optimistic update (flag the
row read; `Math.max(0, prev - 1)` is truncated subtraction), and restore the
snapshot verbatim when the call fails. -/
def clientMarkAsRead (st : ClientState) (notificationId : Nat) (callOk : Bool) : ClientState :=
  let optimistic : ClientState :=
    { notifications := st.notifications.map
        (fun n => if n.id == notificationId then { n with is_read := true } else n)
      unreadCount := st.unreadCount - 1 }
  if callOk then optimistic else st

/-- `markAllAsRead`: snapshot, optimistically flag every row read and zero
the count, restore the snapshot verbatim on failure. -/
def clientMarkAllAsRead (st : ClientState) (callOk : Bool) : ClientState :=
  let optimistic : ClientState :=
    { notifications := st.notifications.map (fun n => { n with is_read := true })
      unreadCount := 0 }
  if callOk then optimistic else st

/-! ## Concrete sample state (used to instantiate the theorems) -/

/-- A stand-in for the external ISO-8601 date validator that accepts every
string (any fixed behaviour works for instantiations). -/
def alwaysISO : String → Bool := fun _ => true

/-- Sample restaurant row. -/
def exRestaurant : Restaurant :=
  { id := 1, name := "Golden Spoon", address := "123 Main St", is_active := true }

/-- Sample table row (capacity 4, available). -/
def exTable : RestaurantTable :=
  { id := 1, restaurant_id := 1, table_number := "A5", capacity := 4, status := "available" }

/-- Sample order row. -/
def exOrder : Order :=
  { id := 3, order_type := "takeout", status := "ready", total_amount := 45 }

/-- Sample booking row (owned by user 7, confirmed). -/
def exBooking : Booking :=
  { id := 5, user_id := 7, restaurant_id := 1, table_id := 1, date := "2025-10-10"
    time := "19:00", guests := 2, special_requests := none, status := "confirmed"
    created_at := 1, updated_at := 1 }

/-- Sample unread notification linked to the booking. -/
def exNotifBooking : Notification :=
  { id := 1, user_id := 7, title := "Booking Confirmed", message := "Your table is reserved"
    type := "success", is_read := false, created_at := 10
    restaurant_id := some 1, booking_id := some 5, order_id := none }

/-- Sample read notification linked to the order. -/
def exNotifOrder : Notification :=
  { id := 2, user_id := 7, title := "Order Ready", message := "Ready for pickup"
    type := "info", is_read := true, created_at := 20
    restaurant_id := some 1, booking_id := none, order_id := some 3 }

/-- Sample unread notification whose join targets are all missing. -/
def exNotifDangling : Notification :=
  { id := 3, user_id := 7, title := "Stale", message := "Targets deleted"
    type := "error", is_read := false, created_at := 30
    restaurant_id := some 99, booking_id := some 99, order_id := some 99 }

/-- Sample database state. -/
def exDB : DB :=
  { restaurants := [exRestaurant]
    restaurant_tables := [exTable]
    bookings := [exBooking]
    orders := [exOrder]
    notifications := [exNotifBooking, exNotifOrder, exNotifDangling]
    nextBookingId := 6
    now := 100 }

/-- A well-formed booking request against the sample state (2 guests fit the
capacity-4 table). -/
def exRequestOk : BookingRequest :=
  { restaurantId := 1, tableId := 1, date := "2025-10-10", time := "19:00"
    guests := 2, specialRequests := none }

/-- A booking request for 5 guests: passes validation but exceeds the
capacity-4 table. -/
def exRequestTooBig : BookingRequest :=
  { restaurantId := 1, tableId := 1, date := "2025-10-10", time := "19:00"
    guests := 5, specialRequests := none }

/-- A booking request for 21 guests: exceeds the table capacity, but is
already rejected by the `guests` range validator. -/
def exRequestOverRange : BookingRequest :=
  { restaurantId := 1, tableId := 1, date := "2025-10-10", time := "19:00"
    guests := 21, specialRequests := none }

/-- Sample enriched notification as rendered by the client. -/
def exClientNotif : EnrichedNotification :=
  { id := 1, title := "Booking Confirmed", message := "Your table is reserved"
    type := "success", is_read := false, created_at := 10
    restaurant_name := some "Golden Spoon", restaurant_address := some "123 Main St"
    booking_details := none, order_details := none }

/-- Sample client panel state: one unread notification displayed. -/
def exClientState : ClientState :=
  { notifications := [exClientNotif], unreadCount := 1 }

/-! ## Helper lemmas -/

/-- `find?` commutes with mapping a row transformation that does not change
the truth of the search predicate. -/
theorem find?_map_of_pred_eq {α : Type} (f : α → α) (p : α → Bool)
    (h : ∀ a, p (f a) = p a) (l : List α) :
    (l.map f).find? p = (l.find? p).map f := by
  rw [List.find?_map]
  have hpf : p ∘ f = p := funext h
  rw [hpf]

/-- Every row surviving the SQL `LIMIT` was in the result set. -/
theorem applyLimit_subset (n : Int) (l : List α) : applyLimit n l ⊆ l := by
  unfold applyLimit
  split
  · exact fun _ h => h
  · exact List.take_subset _ _

/-- The SQL `LIMIT` of an empty result set is empty. -/
theorem applyLimit_nil (n : Int) : applyLimit n ([] : List α) = [] := by
  unfold applyLimit
  split <;> simp

/-- Membership in an insertion step. -/
theorem mem_insertByCreatedAtDesc {a n : Notification} {l : List Notification} :
    a ∈ insertByCreatedAtDesc n l ↔ a = n ∨ a ∈ l := by
  induction l with
  | nil => simp [insertByCreatedAtDesc]
  | cons m l ih =>
      unfold insertByCreatedAtDesc
      split
      · simp
      · simp only [List.mem_cons, ih]
        tauto

/-- Sorting does not change the rows of the result set. -/
theorem mem_sortByCreatedAtDesc {a : Notification} {l : List Notification} :
    a ∈ sortByCreatedAtDesc l ↔ a ∈ l := by
  induction l with
  | nil => simp [sortByCreatedAtDesc]
  | cons n l ih =>
      unfold sortByCreatedAtDesc
      rw [mem_insertByCreatedAtDesc]
      simp [ih]

/-- Every element of the enriched response list comes from a notification
row of the store that passed the `WHERE` clause. -/
theorem mem_getNotificationsData (db : DB) (uid : Nat) (lq uo : Option String)
    (e : EnrichedNotification)
    (he : e ∈ (getNotificationsData db uid lq uo).notifications) :
    ∃ n, n ∈ db.notifications
      ∧ (n.user_id == uid && (!(uo == some "true") || !n.is_read)) = true
      ∧ e = enrichNotification (joinNotification db n) := by
  unfold getNotificationsData at he
  simp only at he
  obtain ⟨n, hn, rfl⟩ := List.mem_map.mp he
  have hn2 : n ∈ sortByCreatedAtDesc (db.notifications.filter
      (fun n => n.user_id == uid && (!(uo == some "true") || !n.is_read))) :=
    applyLimit_subset _ _ hn
  have hn3 := mem_sortByCreatedAtDesc.mp hn2
  have hn4 := List.mem_filter.mp hn3
  exact ⟨n, hn4.1, hn4.2, rfl⟩

/-! ## Claim theorems -/

/-- Claim C10: the effective list limit of `GET /notifications` is
`min(parseInt(limit), 100)` with fallback `50`: an absent limit, a
non-numeric limit, and a limit parsing to `0` all yield the default `50`;
parsed values above `100` are clamped to `100`; a negative parsed value is
used as-is, with no lower bound enforced. -/
theorem limit_clamp_spec :
    effectiveLimit none = 50
    ∧ (∀ s, parseIntJS s = none → effectiveLimit (some s) = 50)
    ∧ (∀ s, parseIntJS s = some 0 → effectiveLimit (some s) = 50)
    ∧ (∀ s v, parseIntJS s = some v → v ≠ 0 → effectiveLimit (some s) = min v 100)
    ∧ (∀ s v, parseIntJS s = some v → (100 : Int) < v → effectiveLimit (some s) = 100)
    ∧ (∀ s v, parseIntJS s = some v → v < 0 → effectiveLimit (some s) = v) := by
  refine ⟨by decide, ?_, ?_, ?_, ?_, ?_⟩
  · intro s h
    simp [effectiveLimit, h, jsNumOrDefault]
  · intro s h
    simp [effectiveLimit, h, jsNumOrDefault]
  · intro s v h hv
    simp [effectiveLimit, h, jsNumOrDefault, hv]
  · intro s v h hv
    have hne : v ≠ 0 := by omega
    simp only [effectiveLimit, h, jsNumOrDefault, if_neg hne]
    omega
  · intro s v h hv
    have hne : v ≠ 0 := by omega
    simp only [effectiveLimit, h, jsNumOrDefault, if_neg hne]
    omega

/-- Witness for C10 at concrete query strings. -/
theorem limit_clamp_spec_witness :
    effectiveLimit none = 50 ∧ effectiveLimit (some "abc") = 50
    ∧ effectiveLimit (some "0") = 50 ∧ effectiveLimit (some "250") = 100
    ∧ effectiveLimit (some "-5") = -5 :=
  ⟨limit_clamp_spec.1,
   limit_clamp_spec.2.1 "abc" (by decide),
   limit_clamp_spec.2.2.1 "0" (by decide),
   limit_clamp_spec.2.2.2.2.1 "250" 250 (by decide) (by decide),
   limit_clamp_spec.2.2.2.2.2 "-5" (-5) (by decide) (by decide)⟩

/-- Claim C9: for every user and database state (and any limit and filter
arguments of the consolidated operation), the legacy unread-count handler
returns exactly the `unread_count` component of the consolidated
`GET /notifications` handler. -/
theorem legacy_unread_count_refines (db : DB) (uid : Nat) (lq uo : Option String) :
    legacyUnreadCount db uid = (getNotificationsData db uid lq uo).unread_count := rfl

/-- Claim C1: with `unread_only=true`, every returned row has
`is_read = false`, and `unread_count` equals the number of the user's
unread notification rows, for every limit argument. -/
theorem unread_only_filter_and_count (db : DB) (uid : Nat) (lq : Option String) :
    (∀ e ∈ (getNotificationsData db uid lq (some "true")).notifications, e.is_read = false)
    ∧ (getNotificationsData db uid lq (some "true")).unread_count
        = (db.notifications.filter (fun n => n.user_id == uid && !n.is_read)).length := by
  constructor
  · intro e he
    obtain ⟨n, -, hpred, rfl⟩ := mem_getNotificationsData db uid lq (some "true") e he
    have h2 := (Bool.and_eq_true _ _).mp hpred
    have h3 : (!n.is_read) = true := by simpa using h2.2
    simpa using h3
  · show db.notifications.countP (fun n => n.user_id == uid && !n.is_read)
        = (db.notifications.filter (fun n => n.user_id == uid && !n.is_read)).length
    exact List.countP_eq_length_filter _ _

/-- Witness for C1 on the sample state. -/
theorem unread_only_filter_and_count_witness :
    (∀ e ∈ (getNotificationsData exDB 7 none (some "true")).notifications, e.is_read = false)
    ∧ (getNotificationsData exDB 7 none (some "true")).unread_count
        = (exDB.notifications.filter (fun n => n.user_id == 7 && !n.is_read)).length :=
  unread_only_filter_and_count exDB 7 none

/-- After `markAllRead`, every notification row of the user is read. -/
theorem markAllRead_all_read (db : DB) (uid : Nat) :
    ∀ n ∈ (markAllRead db uid).notifications, n.user_id = uid → n.is_read = true := by
  intro n hn huser
  obtain ⟨m, hm, rfl⟩ := List.mem_map.mp hn
  by_cases hc : (m.user_id == uid && !m.is_read) = true
  · rw [if_pos hc]
  · rw [if_neg hc] at huser ⊢
    have hbeq : (m.user_id == uid) = true := by simp [huser]
    cases hr : m.is_read with
    | true => rfl
    | false => exact absurd (by simp [hbeq, hr]) hc

/-- Claim C6: `markAllRead` flips every unread row of the user to read (and
is the identity when none are unread), so that an immediately following
`getNotifications(unread_only=true)` returns an empty list and an unread
count of zero. -/
theorem markAllRead_clears_unread (db : DB) (uid : Nat) (lq : Option String) :
    (getNotificationsData (markAllRead db uid) uid lq (some "true")).notifications = []
    ∧ (getNotificationsData (markAllRead db uid) uid lq (some "true")).unread_count = 0
    ∧ (∀ n ∈ (markAllRead db uid).notifications, n.user_id = uid → n.is_read = true)
    ∧ ((∀ n ∈ db.notifications, n.user_id = uid → n.is_read = true) →
        markAllRead db uid = db) := by
  have hnone : ∀ n ∈ (markAllRead db uid).notifications,
      ¬((n.user_id == uid && !n.is_read) = true) := by
    intro n hn hcontra
    have h1 := (Bool.and_eq_true _ _).mp hcontra
    have huser : n.user_id = uid := by simpa using h1.1
    have hread := markAllRead_all_read db uid n hn huser
    rw [hread] at h1
    simpa using h1.2
  refine ⟨?_, ?_, markAllRead_all_read db uid, ?_⟩
  · have hfilter : (markAllRead db uid).notifications.filter
        (fun n => n.user_id == uid && (!((some "true" : Option String) == some "true")
          || !n.is_read)) = [] := by
      rw [List.filter_eq_nil_iff]
      intro a ha hcontra
      exact hnone a ha (by simpa using hcontra)
    show ((applyLimit (effectiveLimit lq) (sortByCreatedAtDesc
        ((markAllRead db uid).notifications.filter
          (fun n => n.user_id == uid && (!((some "true" : Option String) == some "true")
            || !n.is_read))))).map
        (fun n => enrichNotification (joinNotification (markAllRead db uid) n))) = []
    rw [hfilter]
    show (applyLimit (effectiveLimit lq) (sortByCreatedAtDesc [])).map _ = []
    rw [show sortByCreatedAtDesc [] = [] from rfl, applyLimit_nil]
    rfl
  · show (markAllRead db uid).notifications.countP
        (fun n => n.user_id == uid && !n.is_read) = 0
    exact List.countP_eq_zero.mpr hnone
  · intro hall
    show { db with
           notifications := db.notifications.map
             (fun n => if n.user_id == uid && !n.is_read then { n with is_read := true }
               else n) } = db
    have hmap : db.notifications.map
        (fun n => if n.user_id == uid && !n.is_read then { n with is_read := true } else n)
          = db.notifications := by
      have := List.map_congr_left (l := db.notifications)
        (f := fun n : Notification =>
          if n.user_id == uid && !n.is_read then { n with is_read := true } else n)
        (g := id) ?_
      · simpa using this
      · intro a ha
        have : ¬((a.user_id == uid && !a.is_read) = true) := by
          intro hcontra
          have h1 := (Bool.and_eq_true _ _).mp hcontra
          have huser : a.user_id = uid := by simpa using h1.1
          have := hall a ha huser
          rw [this] at h1
          simpa using h1.2
        show (if (a.user_id == uid && !a.is_read) = true then
            { a with is_read := true } else a) = id a
        rw [if_neg this]
        rfl
    rw [hmap]

/-- Witness for C6 on the sample state. -/
theorem markAllRead_clears_unread_witness :
    (getNotificationsData (markAllRead exDB 7) 7 none (some "true")).notifications = []
    ∧ (getNotificationsData (markAllRead exDB 7) 7 none (some "true")).unread_count = 0
    ∧ (∀ n ∈ (markAllRead exDB 7).notifications, n.user_id = 7 → n.is_read = true)
    ∧ ((∀ n ∈ exDB.notifications, n.user_id = 7 → n.is_read = true) →
        markAllRead exDB 7 = exDB) :=
  markAllRead_clears_unread exDB 7 none

/-- The row update of `markRead` changes neither the id nor the owner of a
row, so the owner-scoped lookup predicate is unchanged by it. -/
theorem markRead_update_pred (nid uid : Nat) (a : Notification) :
    (((markReadRow nid a).id == nid) && ((markReadRow nid a).user_id == uid))
    = ((a.id == nid) && (a.user_id == uid)) := by
  unfold markReadRow
  by_cases h : (a.id == nid) = true
  · rw [if_pos h]
  · rw [if_neg h]

/-- Applying the `is_read = 1` row update twice is the same as applying it
once. -/
theorem markRead_map_idem (nid : Nat) (l : List Notification) :
    (l.map (markReadRow nid)).map (markReadRow nid) = l.map (markReadRow nid) := by
  rw [List.map_map]
  apply List.map_congr_left
  intro a _
  show markReadRow nid (markReadRow nid a) = markReadRow nid a
  unfold markReadRow
  by_cases hc : (a.id == nid) = true
  · simp [hc]
  · simp [hc]

/-- Claim C7: `markRead` answers NotFound exactly when no notification row
matches the given id and owner; when it succeeds, every row with that id is
read afterwards, and a second call succeeds as well and changes nothing. -/
theorem markRead_notFound_iff_idempotent (db : DB) (nid uid : Nat) :
    ((markRead db nid uid).1 = .notFound
        ↔ ∀ n ∈ db.notifications, ¬(n.id = nid ∧ n.user_id = uid))
    ∧ ((markRead db nid uid).1 = .ok →
        (∀ n ∈ (markRead db nid uid).2.notifications, n.id = nid → n.is_read = true)
        ∧ markRead ((markRead db nid uid).2) nid uid
            = (.ok, (markRead db nid uid).2)) := by
  cases hf : db.notifications.find? (fun n => n.id == nid && n.user_id == uid) with
  | none =>
      have hres : markRead db nid uid = (.notFound, db) := by
        unfold markRead
        rw [hf]
      rw [hres]
      constructor
      · constructor
        · intro _ n hn hcontra
          exact absurd (by simp [hcontra.1, hcontra.2]) (List.find?_eq_none.mp hf n hn)
        · intro _
          rfl
      · intro h
        exact MarkReadResult.noConfusion h
  | some m =>
      have hp := List.find?_some hf
      have hmem := List.mem_of_find?_eq_some hf
      have hres : markRead db nid uid
          = (.ok, { db with notifications := db.notifications.map (markReadRow nid) }) := by
        unfold markRead
        rw [hf]
      rw [hres]
      constructor
      · constructor
        · intro h
          exact MarkReadResult.noConfusion h
        · intro hall
          have h1 : m.id = nid := by simpa using ((Bool.and_eq_true _ _).mp hp).1
          have h2 : m.user_id = uid := by simpa using ((Bool.and_eq_true _ _).mp hp).2
          exact absurd ⟨h1, h2⟩ (hall m hmem)
      · intro _
        constructor
        · intro n hn hid
          obtain ⟨a, ha, rfl⟩ := List.mem_map.mp hn
          unfold markReadRow at hid ⊢
          by_cases hc : (a.id == nid) = true
          · rw [if_pos hc]
          · rw [if_neg hc] at hid ⊢
            exact absurd (by simp [hid]) hc
        · have hfind2 : (db.notifications.map (markReadRow nid)).find?
                (fun n => n.id == nid && n.user_id == uid)
              = some (markReadRow nid m) := by
            rw [find?_map_of_pred_eq _ _ (markRead_update_pred nid uid), hf]
            rfl
          show markRead
              { db with notifications := db.notifications.map (markReadRow nid) } nid uid = _
          unfold markRead
          rw [show ({ db with
              notifications := db.notifications.map (markReadRow nid) } : DB).notifications
            = db.notifications.map (markReadRow nid) from rfl]
          rw [hfind2, markRead_map_idem]

/-- Witness for C7 on the sample state (notification 1 of user 7 exists). -/
theorem markRead_notFound_iff_idempotent_witness :
    ((markRead exDB 1 7).1 = .notFound
        ↔ ∀ n ∈ exDB.notifications, ¬(n.id = 1 ∧ n.user_id = 7))
    ∧ ((markRead exDB 1 7).1 = .ok →
        (∀ n ∈ (markRead exDB 1 7).2.notifications, n.id = 1 → n.is_read = true)
        ∧ markRead ((markRead exDB 1 7).2) 1 7 = (.ok, (markRead exDB 1 7).2)) :=
  markRead_notFound_iff_idempotent exDB 1 7

/-- The joined `booking_id` column is the id of the booking row found by the
`LEFT JOIN`, when one exists. -/
theorem joinNotification_booking_id (db : DB) (n : Notification) :
    (joinNotification db n).booking_id
      = (n.booking_id.bind (fun bid => db.bookings.find? (fun x => x.id == bid))).map
          (fun x => x.id) := rfl

/-- The joined `order_id` column is the id of the order row found by the
`LEFT JOIN`, when one exists. -/
theorem joinNotification_order_id (db : DB) (n : Notification) :
    (joinNotification db n).order_id
      = (n.order_id.bind (fun oid => db.orders.find? (fun x => x.id == oid))).map
          (fun x => x.id) := rfl

/-- The joined restaurant columns come from the restaurant row found by the
`LEFT JOIN`, when one exists. -/
theorem joinNotification_restaurant (db : DB) (n : Notification) :
    (joinNotification db n).restaurant_name
        = (n.restaurant_id.bind (fun rid => db.restaurants.find?
            (fun x => x.id == rid))).map (fun x => x.name)
    ∧ (joinNotification db n).restaurant_address
        = (n.restaurant_id.bind (fun rid => db.restaurants.find?
            (fun x => x.id == rid))).map (fun x => x.address) := ⟨rfl, rfl⟩

/-- The enriched row has a `booking_details` sub-object exactly when the
joined `booking_id` column is a truthy JS value (non-null and non-zero). -/
theorem enrich_booking_isSome_iff (j : JoinedNotification) :
    (enrichNotification j).booking_details.isSome
      ↔ ∃ bid, j.booking_id = some bid ∧ bid ≠ 0 := by
  cases hb : j.booking_id with
  | none => simp [enrichNotification, hb]
  | some bid =>
      by_cases h0 : bid = 0
      · subst h0
        simp [enrichNotification, hb]
      · simp [enrichNotification, hb, h0]

/-- The enriched row has an `order_details` sub-object exactly when the
joined `order_id` column is a truthy JS value (non-null and non-zero). -/
theorem enrich_order_isSome_iff (j : JoinedNotification) :
    (enrichNotification j).order_details.isSome
      ↔ ∃ oid, j.order_id = some oid ∧ oid ≠ 0 := by
  cases ho : j.order_id with
  | none => simp [enrichNotification, ho]
  | some oid =>
      by_cases h0 : oid = 0
      · subst h0
        simp [enrichNotification, ho]
      · simp [enrichNotification, ho, h0]

/-- When no restaurant row matches the notification, the enriched
restaurant fields are null. -/
theorem enrich_restaurant_none (db : DB) (n : Notification)
    (hno : ¬∃ r ∈ db.restaurants, n.restaurant_id = some r.id) :
    (enrichNotification (joinNotification db n)).restaurant_name = none
    ∧ (enrichNotification (joinNotification db n)).restaurant_address = none := by
  have hr : n.restaurant_id.bind
      (fun rid => db.restaurants.find? (fun x => x.id == rid)) = none := by
    cases hrid : n.restaurant_id with
    | none => rfl
    | some rid =>
        rw [Option.some_bind, List.find?_eq_none]
        intro x hx hbeq
        have : x.id = rid := by simpa using hbeq
        exact hno ⟨x, hx, by rw [hrid, this]⟩
  constructor
  · show jsStringOrNull ((n.restaurant_id.bind
        (fun rid => db.restaurants.find? (fun x => x.id == rid))).map (fun x => x.name)) = none
    rw [hr]
    rfl
  · show jsStringOrNull ((n.restaurant_id.bind
        (fun rid => db.restaurants.find? (fun x => x.id == rid))).map (fun x => x.address)) = none
    rw [hr]
    rfl

/-- The enriched row carries a `booking_details` sub-object exactly when the
linked booking row exists (given that booking ids are never 0). -/
theorem enrich_booking_present (db : DB) (n : Notification)
    (hb : ∀ b ∈ db.bookings, b.id ≠ 0) :
    (enrichNotification (joinNotification db n)).booking_details.isSome
      ↔ ∃ b ∈ db.bookings, n.booking_id = some b.id := by
  have hchar := enrich_booking_isSome_iff (joinNotification db n)
  constructor
  · intro h
    obtain ⟨bid, hjb, h0⟩ := hchar.mp h
    rw [joinNotification_booking_id] at hjb
    obtain ⟨bk, hbk, hbkid⟩ := Option.map_eq_some'.mp hjb
    obtain ⟨bid0, hnb, hfind⟩ := Option.bind_eq_some.mp hbk
    refine ⟨bk, List.mem_of_find?_eq_some hfind, ?_⟩
    have hid : bk.id = bid0 := by simpa using List.find?_some hfind
    rw [hnb, hid]
  · rintro ⟨b, hbm, hlink⟩
    apply hchar.mpr
    have hfind : (db.bookings.find? (fun x => x.id == b.id)).isSome :=
      List.find?_isSome.mpr ⟨b, hbm, by simp⟩
    obtain ⟨bk, hbk⟩ := Option.isSome_iff_exists.mp hfind
    refine ⟨bk.id, ?_, hb bk (List.mem_of_find?_eq_some hbk)⟩
    rw [joinNotification_booking_id, hlink, Option.some_bind, hbk]
    rfl

/-- The enriched row carries an `order_details` sub-object exactly when the
linked order row exists (given that order ids are never 0). -/
theorem enrich_order_present (db : DB) (n : Notification)
    (ho : ∀ o ∈ db.orders, o.id ≠ 0) :
    (enrichNotification (joinNotification db n)).order_details.isSome
      ↔ ∃ o ∈ db.orders, n.order_id = some o.id := by
  have hchar := enrich_order_isSome_iff (joinNotification db n)
  constructor
  · intro h
    obtain ⟨oid, hjo, h0⟩ := hchar.mp h
    rw [joinNotification_order_id] at hjo
    obtain ⟨ok, hok, hokid⟩ := Option.map_eq_some'.mp hjo
    obtain ⟨oid0, hno2, hfind⟩ := Option.bind_eq_some.mp hok
    refine ⟨ok, List.mem_of_find?_eq_some hfind, ?_⟩
    have hid : ok.id = oid0 := by simpa using List.find?_some hfind
    rw [hno2, hid]
  · rintro ⟨o, hom, hlink⟩
    apply hchar.mpr
    have hfind : (db.orders.find? (fun x => x.id == o.id)).isSome :=
      List.find?_isSome.mpr ⟨o, hom, by simp⟩
    obtain ⟨ok, hok⟩ := Option.isSome_iff_exists.mp hfind
    refine ⟨ok.id, ?_, ho ok (List.mem_of_find?_eq_some hok)⟩
    rw [joinNotification_order_id, hlink, Option.some_bind, hok]
    rfl

/-- Claim C8: `getNotifications` degrades gracefully on missing join
targets: every returned row comes from a stored notification; its
restaurant fields are null when no matching restaurant row exists; and its
booking/order sub-objects are present exactly when the linked booking/order
row exists (ids being nonzero, as for autoincrement primary keys). -/
theorem enrichment_degrades_gracefully (db : DB) (uid : Nat) (lq uo : Option String)
    (hb : ∀ b ∈ db.bookings, b.id ≠ 0) (ho : ∀ o ∈ db.orders, o.id ≠ 0) :
    ∀ e ∈ (getNotificationsData db uid lq uo).notifications,
      ∃ n, n ∈ db.notifications ∧ e = enrichNotification (joinNotification db n)
        ∧ ((¬∃ r ∈ db.restaurants, n.restaurant_id = some r.id) →
            e.restaurant_name = none ∧ e.restaurant_address = none)
        ∧ (e.booking_details.isSome ↔ ∃ b ∈ db.bookings, n.booking_id = some b.id)
        ∧ (e.order_details.isSome ↔ ∃ o ∈ db.orders, n.order_id = some o.id) := by
  intro e he
  obtain ⟨n, hnmem, -, rfl⟩ := mem_getNotificationsData db uid lq uo e he
  exact ⟨n, hnmem, rfl, enrich_restaurant_none db n,
    enrich_booking_present db n hb, enrich_order_present db n ho⟩

/-- Witness for C8 on the sample state, at the returned row built from the
dangling notification 3 (all of its join targets are missing). -/
theorem enrichment_degrades_gracefully_witness :
    ∃ n, n ∈ exDB.notifications
      ∧ enrichNotification (joinNotification exDB exNotifDangling)
          = enrichNotification (joinNotification exDB n)
      ∧ ((¬∃ r ∈ exDB.restaurants, n.restaurant_id = some r.id) →
          (enrichNotification (joinNotification exDB exNotifDangling)).restaurant_name = none
          ∧ (enrichNotification
              (joinNotification exDB exNotifDangling)).restaurant_address = none)
      ∧ ((enrichNotification (joinNotification exDB exNotifDangling)).booking_details.isSome
          ↔ ∃ b ∈ exDB.bookings, n.booking_id = some b.id)
      ∧ ((enrichNotification (joinNotification exDB exNotifDangling)).order_details.isSome
          ↔ ∃ o ∈ exDB.orders, n.order_id = some o.id) :=
  enrichment_degrades_gracefully exDB 7 none none (by decide) (by decide)
    (enrichNotification (joinNotification exDB exNotifDangling)) (by decide)

/-- Counterexample to claim C2 as stated: for the request with 21 guests
against the capacity-4 table, the guest count exceeds the target table's
capacity, yet the handler does not answer with the capacity-violation
error — the `guests` range validator rejects the request first with a
generic validation error. -/
theorem capacity_claim_counterexample :
    (∃ t ∈ exDB.restaurant_tables, t.id = exRequestOverRange.tableId
      ∧ t.restaurant_id = exRequestOverRange.restaurantId
      ∧ t.capacity < exRequestOverRange.guests)
    ∧ (createBooking alwaysISO exDB 9 exRequestOverRange).1.isCapacityExceeded = false
    ∧ (createBooking alwaysISO exDB 9 exRequestOverRange).1 = .validationFailed
    ∧ (createBooking alwaysISO exDB 9 exRequestOverRange).2 = exDB := by
  decide

/-- Claim C2 (amended): for every booking request that passes input
validation and whose restaurant and table lookups succeed, a guest count
exceeding the table's capacity is rejected with the capacity-violation
error (HTTP 400) and no state mutation occurs. -/
theorem capacity_reject_no_mutation (iso : String → Bool) (db : DB) (uid : Nat)
    (req : BookingRequest) (r : Restaurant) (t : RestaurantTable)
    (hv : bookingValidationOk iso req = true)
    (hr : db.restaurants.find? (fun x => x.id == req.restaurantId && x.is_active) = some r)
    (ht : db.restaurant_tables.find?
        (fun x => x.id == req.tableId && x.restaurant_id == req.restaurantId) = some t)
    (hc : t.capacity < req.guests) :
    createBooking iso db uid req = (.capacityExceeded t.capacity req.guests, db)
    ∧ (BookingResponse.capacityExceeded t.capacity req.guests).statusCode = 400 := by
  constructor
  · unfold createBooking
    rw [hv, hr, ht]
    simp [hc]
  · rfl

/-- Witness for the amended C2: 5 guests against the capacity-4 table. -/
theorem capacity_reject_no_mutation_witness :
    createBooking alwaysISO exDB 9 exRequestTooBig
        = (.capacityExceeded exTable.capacity exRequestTooBig.guests, exDB)
    ∧ (BookingResponse.capacityExceeded exTable.capacity
        exRequestTooBig.guests).statusCode = 400 :=
  capacity_reject_no_mutation alwaysISO exDB 9 exRequestTooBig exRestaurant exTable
    (by decide) (by decide) (by decide) (by decide)

/-- Claim C3: for every valid booking request with an active restaurant, a
table of that restaurant with sufficient capacity and status available, the
handler answers 201 with the booking id, restaurant name, table number,
echoed date/time/guests and status `confirmed`, inserts a confirmed booking
row, and sets the table's status to `reserved`. -/
theorem createBooking_success (iso : String → Bool) (db : DB) (uid : Nat)
    (req : BookingRequest) (r : Restaurant) (t : RestaurantTable)
    (hv : bookingValidationOk iso req = true)
    (hr : db.restaurants.find? (fun x => x.id == req.restaurantId && x.is_active) = some r)
    (ht : db.restaurant_tables.find?
        (fun x => x.id == req.tableId && x.restaurant_id == req.restaurantId) = some t)
    (hc : req.guests ≤ t.capacity) (hs : t.status = "available") :
    (createBooking iso db uid req).1
        = .created { bookingId := db.nextBookingId, restaurantName := r.name,
                     tableNumber := t.table_number, date := req.date, time := req.time,
                     guests := req.guests, status := "confirmed" }
    ∧ ((createBooking iso db uid req).1).statusCode = 201
    ∧ (∃ b ∈ (createBooking iso db uid req).2.bookings,
        b.id = db.nextBookingId ∧ b.user_id = uid ∧ b.restaurant_id = req.restaurantId
          ∧ b.table_id = req.tableId ∧ b.date = req.date ∧ b.time = req.time
          ∧ b.guests = req.guests ∧ b.status = "confirmed")
    ∧ (∀ t2 ∈ (createBooking iso db uid req).2.restaurant_tables,
        t2.id = req.tableId → t2.status = "reserved") := by
  have hneg : ¬(t.capacity < req.guests) := Nat.not_lt.mpr hc
  have hresp : (createBooking iso db uid req).1
      = .created { bookingId := db.nextBookingId, restaurantName := r.name,
                   tableNumber := t.table_number, date := req.date, time := req.time,
                   guests := req.guests, status := "confirmed" } := by
    unfold createBooking
    rw [hv, hr, ht]
    simp [hneg, hs]
  have hbookings : (createBooking iso db uid req).2.bookings
      = db.bookings ++ [{ id := db.nextBookingId, user_id := uid,
                          restaurant_id := req.restaurantId, table_id := req.tableId,
                          date := req.date, time := req.time, guests := req.guests,
                          special_requests := jsStringOrNull req.specialRequests,
                          status := "confirmed", created_at := db.now,
                          updated_at := db.now }] := by
    unfold createBooking
    rw [hv, hr, ht]
    simp [hneg, hs]
  have htables : (createBooking iso db uid req).2.restaurant_tables
      = db.restaurant_tables.map
          (fun x => if x.id == req.tableId then { x with status := "reserved" } else x) := by
    unfold createBooking
    rw [hv, hr, ht]
    simp [hneg, hs]
  refine ⟨hresp, by rw [hresp]; rfl, ?_, ?_⟩
  · rw [hbookings]
    exact ⟨_, List.mem_append_right _ (List.mem_singleton_self _),
      rfl, rfl, rfl, rfl, rfl, rfl, rfl, rfl⟩
  · rw [htables]
    intro t2 ht2 hid
    obtain ⟨a, ha, rfl⟩ := List.mem_map.mp ht2
    by_cases hcase : (a.id == req.tableId) = true
    · rw [if_pos hcase]
    · rw [if_neg hcase] at hid ⊢
      exact absurd (by simp [hid]) hcase

/-- Witness for C3: the well-formed sample request against the sample
state. -/
theorem createBooking_success_witness :
    (createBooking alwaysISO exDB 7 exRequestOk).1
        = .created { bookingId := exDB.nextBookingId, restaurantName := exRestaurant.name,
                     tableNumber := exTable.table_number, date := exRequestOk.date,
                     time := exRequestOk.time, guests := exRequestOk.guests,
                     status := "confirmed" }
    ∧ ((createBooking alwaysISO exDB 7 exRequestOk).1).statusCode = 201
    ∧ (∃ b ∈ (createBooking alwaysISO exDB 7 exRequestOk).2.bookings,
        b.id = exDB.nextBookingId ∧ b.user_id = 7
          ∧ b.restaurant_id = exRequestOk.restaurantId ∧ b.table_id = exRequestOk.tableId
          ∧ b.date = exRequestOk.date ∧ b.time = exRequestOk.time
          ∧ b.guests = exRequestOk.guests ∧ b.status = "confirmed")
    ∧ (∀ t2 ∈ (createBooking alwaysISO exDB 7 exRequestOk).2.restaurant_tables,
        t2.id = exRequestOk.tableId → t2.status = "reserved") :=
  createBooking_success alwaysISO exDB 7 exRequestOk exRestaurant exTable
    (by decide) (by decide) (by decide) (by decide) (by decide)

/-- The cancel row update changes neither the id nor the owner of a booking
row, so the owner-scoped lookup predicate is unchanged by it. -/
theorem cancelRow_pred (bid uid stamp : Nat) (a : Booking) :
    (((cancelBookingRow bid stamp a).id == bid)
      && ((cancelBookingRow bid stamp a).user_id == uid))
    = ((a.id == bid) && (a.user_id == uid)) := by
  unfold cancelBookingRow
  by_cases hc : (a.id == bid) = true
  · rw [if_pos hc]
  · rw [if_neg hc]

/-- Claim C5: after a successful cancellation, cancelling the same booking
again as the same owner answers AlreadyCancelled (HTTP 400) and leaves the
whole state — booking rows and table statuses included — untouched. -/
theorem cancel_twice_alreadyCancelled (db : DB) (bid uid : Nat) (db1 : DB)
    (h : cancelBooking db bid uid = (.cancelled, db1)) :
    cancelBooking db1 bid uid = (.alreadyCancelled, db1)
    ∧ CancelResponse.alreadyCancelled.statusCode = 400 := by
  refine ⟨?_, rfl⟩
  cases hf : db.bookings.find? (fun b => b.id == bid && b.user_id == uid) with
  | none =>
      unfold cancelBooking at h
      rw [hf] at h
      simp at h
  | some bk =>
      unfold cancelBooking at h
      rw [hf] at h
      by_cases hst : (bk.status == "cancelled") = true
      · simp [hst] at h
      · simp only [hst, Bool.false_eq_true, if_false, if_neg, Prod.mk.injEq, true_and] at h
        have hbooks : db1.bookings = db.bookings.map (cancelBookingRow bid db.now) := by
          rw [← h]
        have hp := List.find?_some hf
        have hbkid : (bk.id == bid) = true := by
          have h1 : bk.id = bid := by simpa using ((Bool.and_eq_true _ _).mp hp).1
          simp [h1]
        have hrow : cancelBookingRow bid db.now bk
            = { bk with status := "cancelled", updated_at := db.now } := by
          unfold cancelBookingRow
          rw [if_pos hbkid]
        have hfind2 : (db.bookings.map (cancelBookingRow bid db.now)).find?
            (fun b => b.id == bid && b.user_id == uid)
              = some (cancelBookingRow bid db.now bk) := by
          rw [find?_map_of_pred_eq _ _ (cancelRow_pred bid uid db.now), hf]
          rfl
        unfold cancelBooking
        rw [hbooks, hfind2, hrow]
        rfl

/-- Witness for C5: cancelling sample booking 5 of user 7, then again. -/
theorem cancel_twice_alreadyCancelled_witness :
    cancelBooking ((cancelBooking exDB 5 7).2) 5 7
        = (.alreadyCancelled, (cancelBooking exDB 5 7).2)
    ∧ CancelResponse.alreadyCancelled.statusCode = 400 :=
  cancel_twice_alreadyCancelled exDB 5 7 ((cancelBooking exDB 5 7).2) (by decide)

/-- Counterexample to claim C4 as stated: a failed refresh does not leave
the panel in its last-known-good state — `loadNotifications` clears the
displayed list and the unread count on any failure, so the pre-failure
state (one displayed notification, count 1) is lost. -/
theorem refresh_failure_clears_state :
    loadNotifications exClientState .networkError ≠ exClientState
    ∧ loadNotifications exClientState .badResponse ≠ exClientState
    ∧ loadNotifications exClientState .networkError
        = { notifications := [], unreadCount := 0 }
    ∧ exClientState.notifications ≠ [] ∧ exClientState.unreadCount ≠ 0 := by
  decide

/-- Claim C4 (amended): for the mutation interactions (mark-one-read and
mark-all-read) any failure restores the pre-mutation snapshot verbatim; a
failed refresh, however, does not keep the last-known-good state but resets
the panel to an empty list and a zero unread count, for both a non-success
response and a network failure. -/
theorem client_failure_behaviour (st : ClientState) (nid : Nat) :
    clientMarkAsRead st nid false = st
    ∧ clientMarkAllAsRead st false = st
    ∧ loadNotifications st .networkError = { notifications := [], unreadCount := 0 }
    ∧ loadNotifications st .badResponse = { notifications := [], unreadCount := 0 } :=
  ⟨rfl, rfl, rfl, rfl⟩

end BookingApp
